import Mathlib

/-!
Shallow embedding of the release-publishing script (scripts/publish) of the
stripe-js repository, together with theorems checking the claims of
the specification about it.  External commands (npm, yarn, git, hub, node) are modelled
by fields of an environment record recording their observable outcomes; the
control flow, printed messages and command invocations of the script are
translated line by line from the source.  The trace of a run is the list of
printed messages and external actions, in order, and the result of a run is
that trace together with the process exit code.
-/

namespace Publish

/-- startsWithL pat s: does the character list s start with pat? -/
def startsWithL : List Char → List Char → Bool
  | [], _ => true
  | _ :: _, [] => false
  | a :: as, b :: bs => a = b && startsWithL as bs

/-- hasSubL pat s: does s contain pat as a contiguous sublist? -/
def hasSubL (pat : List Char) : List Char → Bool
  | [] => startsWithL pat []
  | c :: rest => startsWithL pat (c :: rest) || hasSubL pat rest

/-- Model of grep -q PAT on a captured string: substring occurrence. -/
def containsStr (s pat : String) : Bool := hasSubL pat.data s.data

/-- Model of grep applied to a leading anchor: the string starts with pat. -/
def strStartsWith (s pat : String) : Bool := startsWithL pat.data s.data

/-- A semantic version with an optional rc prerelease counter,
e.g. 1.2.3 or 1.2.3-rc.0. -/
structure Version where
  major : Nat
  minor : Nat
  patch : Nat
  pre : Option Nat
deriving DecidableEq

/-- Render a version the way package manifests print it. -/
def Version.render (v : Version) : String :=
  Nat.repr v.major ++ "." ++ Nat.repr v.minor ++ "." ++ Nat.repr v.patch ++
    (match v.pre with
     | none => ""
     | some n => "-rc." ++ Nat.repr n)

/-- Modelled from the spec: the prerelease increment of the external
package-manifest version mutator (invoked by the script as yarn version
--prerelease --preid=rc; the tool itself is not part of this repository).  Per the spec:
increment the prerelease counter only (1.2.3-rc.0 to 1.2.3-rc.1); if the
current version has no prerelease suffix, start a new prerelease at counter
0 (1.2.3 to 1.2.3-rc.0). -/
def prereleaseBump (v : Version) : Version :=
  match v.pre with
  | some n => ⟨v.major, v.minor, v.patch, some (n + 1)⟩
  | none => ⟨v.major, v.minor, v.patch, some 0⟩

/-- Modelled from the spec: the plain component bump of the external
version mutator (invoked by the script as yarn version --patch / --minor
/ --major).
Per the spec: bump the specified component and strip any prerelease suffix
(patch on 1.2.3-rc.0 gives 1.2.4; major on 1.2.3 gives 2.0.0). -/
def mainBump (rt : String) (v : Version) : Option Version :=
  match rt with
  | "patch" => some ⟨v.major, v.minor, v.patch + 1, none⟩
  | "minor" => some ⟨v.major, v.minor + 1, 0, none⟩
  | "major" => some ⟨v.major + 1, 0, 0, none⟩
  | _ => none

/-- Modelled from the spec: the component bump of the external version
mutator into a fresh prerelease (invoked by the script as yarn version
--prepatch / --preminor / --premajor --preid=rc).  Per the spec: bump the specified
component and reset into a fresh prerelease at counter 0 (patch on
1.2.3-rc.0 gives 1.2.4-rc.0; major on 1.2.3 gives 2.0.0-rc.0). -/
def preMainBump (rt : String) (v : Version) : Option Version :=
  (mainBump rt v).map (fun w => ⟨w.major, w.minor, w.patch, some 0⟩)

/-- The command-line flags the script passes to the version mutator, from
the three-way source branch on IS_RELEASE_CANDIDATE and RELEASE_TYPE. -/
def releaseFlagsOf (isRC : Bool) (rt : String) : List String :=
  if isRC then
    if rt = "" then ["--prerelease", "--preid=rc"]
    else ["--pre" ++ rt, "--preid=rc"]
  else ["--" ++ rt]

/-- Modelled from the spec: dispatch of the version-mutator invocation on
its flags, combining the three spec-modelled increments above.  Flags the
spec gives no meaning to yield none. -/
def yarnVersionSem (flags : List String) (v : Version) : Option Version :=
  match flags with
  | ["--prerelease", "--preid=rc"] => some (prereleaseBump v)
  | ["--prepatch", "--preid=rc"] => preMainBump "patch" v
  | ["--preminor", "--preid=rc"] => preMainBump "minor" v
  | ["--premajor", "--preid=rc"] => preMainBump "major" v
  | ["--patch"] => mainBump "patch" v
  | ["--minor"] => mainBump "minor" v
  | ["--major"] => mainBump "major" v
  | _ => none

/-- The version bump performed by a run, as a function of the prerelease
flag, the release-type argument (empty string when absent) and the current
version: the script chooses the flags, the mutator applies them. -/
def bumpOutcome (isRC : Bool) (rt : String) (v : Version) : Option Version :=
  yarnVersionSem (releaseFlagsOf isRC rt) v

/-- One observable event of a run: a printed line or an external action. -/
inductive Event where
  | out (s : String)
  | usage
  | fetch
  | install
  | bump (flags : List String)
  | build
  | testRun
  | push
  | releaseCreate (version : String) (titles : List String)
  | releaseFallback
  | publish (rcChannel : Bool)
deriving DecidableEq

/-- The outcomes of every external command the script consults, plus its
command line.  isRC models the is_release_candidate.js output being 1;
gitStatus is the text captured from git status; whichHubOut is the stdout
of which hub; headSigStatus is the %G? signature status of the most recent
commit; history lists (hash, subject) of the linear commit history, oldest
first; tagIndex maps a tag name to the index of its commit in history.
Install, build and test exit codes are modelled (the build and test
gate of the spec); the remaining external invocations are modelled as succeeding. -/
structure Env where
  isRC : Bool
  args : List String
  npmLoggedIn : Bool
  yarnLoggedIn : Bool
  hubPresent : Bool
  githubToken : String
  gpgFormat : String
  signingKey : String
  signingKeyExists : Bool
  commitGpgsign : String
  gitStatus : String
  installCode : Nat
  buildCode : Nat
  testCode : Nat
  headHash : String
  headSigStatus : String
  whichHubOut : String
  tags : List String
  history : List (String × String)
  tagIndex : List (String × Nat)
deriving DecidableEq

/-- RELEASE_TYPE, i.e. the first positional argument or the empty string. -/
def firstArg (env : Env) : String := env.args.headD ""

/-- Events emitted by a fragment of the script, plus some exit code if the
fragment terminated the process there. -/
abbrev StepOut := List Event × Option Nat

/-- Sequential composition: if a exits, b never runs. -/
def thenDo (a b : StepOut) : StepOut :=
  match a.2 with
  | some c => (a.1, some c)
  | none => (a.1 ++ b.1, b.2)

/-- Run a list of script fragments in order, stopping at the first exit. -/
def runList : List StepOut → StepOut
  | [] => ([], none)
  | s :: rest => thenDo s (runList rest)

/-- The release-type validation block (source lines 145-167): skipped
entirely on prerelease runs; otherwise a missing or unrecognized release
type prints an error plus the usage text and exits 1. -/
def argCheck (env : Env) : StepOut :=
  if env.isRC then ([], none)
  else if env.args.length = 0 then
    ([.out "Error! Missing release type argument", .out "", .usage], some 1)
  else if firstArg env ∈ (["patch", "minor", "major"] : List String) then ([], none)
  else ([.out "Error! Invalid release type supplied", .out "", .usage], some 1)

/-- The help block (source lines 170-175), which in the source runs after
the release-type validation block: a help token prints usage and exits 0. -/
def helpCheck (env : Env) : StepOut :=
  if firstArg env ∈ (["-h", "--help", "help"] : List String) then ([.usage], some 0)
  else ([], none)

/-- The eight prerequisite checks of verify_prerequisites, in source order:
each is a condition together with the messages printed when it fails. -/
def prereqChecks (env : Env) : List (Bool × List String) :=
  [(env.npmLoggedIn,
    ["Error! You are not logged in to npm.",
     "Please run \x27npm login\x27 and try again."]),
   (env.yarnLoggedIn,
    ["Error! You are not logged in to yarn.",
     "Please run \x27yarn login\x27 and try again."]),
   (env.hubPresent,
    ["Error! \x27hub\x27 command not found.",
     "Please install hub with \x27brew install hub\x27."]),
   (env.githubToken != "",
    ["Error! GITHUB_TOKEN environment variable is not set."]),
   (env.gpgFormat == "ssh",
    ["Error! Git is not configured to use SSH for commit signing.",
     "Please run: git config --global gpg.format ssh"]),
   (env.signingKey != "",
    ["Error! Git signing key is not configured.",
     "Please run: git config --global user.signingkey ~/.ssh/id_ed25519.pub"]),
   (env.signingKeyExists,
    ["Error! Git signing key does not exist at: " ++ env.signingKey,
     "Please set up SSH key for signing as described in the documentation."]),
   (env.commitGpgsign == "true",
    ["Error! Git commit signing is not enabled.",
     "Please run: git config --global commit.gpgsign true"])]

/-- Run the prerequisite checks in order: the first failing check prints
its messages and exits 1; if all pass, the success line is printed. -/
def runChecks : List (Bool × List String) → StepOut
  | [] => ([.out "All prerequisites verified successfully!"], none)
  | (ok, msgs) :: rest =>
    if ok then runChecks rest else (msgs.map .out, some 1)

/-- verify_prerequisites (source lines 20-80). -/
def verify_prerequisites (env : Env) : StepOut :=
  thenDo ([.out "Verifying prerequisites..."], none) (runChecks (prereqChecks env))

/-- The repository-state block (source lines 182-200): fetch, capture git
status, then require the master branch, an up-to-date branch and a clean
working tree, in that order, each failure exiting 1. -/
def repoStateCheck (env : Env) : StepOut :=
  thenDo ([.out "Fetching git remotes", .fetch], none)
    (if !(containsStr env.gitStatus "On branch master") then
       ([.out "Error! Must be on master branch to publish"], some 1)
     else if !(containsStr env.gitStatus "Your branch is up to date with \x27origin/master\x27.") then
       ([.out "Error! Must be up to date with origin/master to publish"], some 1)
     else if !(containsStr env.gitStatus "working tree clean") then
       ([.out "Error! Cannot publish with dirty working tree"], some 1)
     else ([], none))

/-- yarn install --frozen-lockfile (source line 203), propagating a
non-zero exit code. -/
def installStep (env : Env) : StepOut :=
  ([.out "Installing dependencies according to lockfile", .install],
   if env.installCode = 0 then none else some env.installCode)

/-- The flags the run passes to yarn version. -/
def releaseFlags (env : Env) : List String :=
  releaseFlagsOf env.isRC (firstArg env)

/-- The version-bump block (source lines 205-226). -/
def bumpStep (env : Env) : StepOut :=
  ([.out ("Bumping package.json " ++ firstArg env ++ " version and tagging commit"),
    .bump (releaseFlags env)], none)

/-- yarn run build (source line 229), propagating a non-zero exit code. -/
def buildStep (env : Env) : StepOut :=
  ([.out "Building", .build], if env.buildCode = 0 then none else some env.buildCode)

/-- yarn run test (source line 232), propagating a non-zero exit code. -/
def testStep (env : Env) : StepOut :=
  ([.out "Running tests", .testRun], if env.testCode = 0 then none else some env.testCode)

/-- verify_commit_is_signed (source lines 132-140): abort iff the %G?
status of the most recent commit contains the letter N. -/
def verify_commit_is_signed (env : Env) : StepOut :=
  if containsStr env.headSigStatus "N" then
    ([.out ("Error! Commit " ++ env.headHash ++ " is not signed"),
      .out "Please follow https://docs.github.com/en/authentication/managing-commit-signature-verification/adding-a-gpg-key-to-your-github-account and sign your commit"],
     some 1)
  else ([], none)

/-- git push --follow-tags (source line 237). -/
def pushStep : StepOut := ([.out "Pushing git commit and tag", .push], none)

/-- The tag pipeline of source line 89: tags sorted by version (as given),
keep those starting with v, drop those containing rc. -/
def qualifyingTags (env : Env) : List String :=
  (env.tags.filter (fun t => strStartsWith t "v")).filter (fun t => !(containsStr t "rc"))

/-- tail -n 2. -/
def lastTwo (l : List String) : List String := l.drop (l.length - 2)

/-- Association-list lookup of the commit index of a tag. -/
def lookupIdx : List (String × Nat) → String → Option Nat
  | [], _ => none
  | p :: rest, t => if p.1 = t then some p.2 else lookupIdx rest t

/-- git log prev..cur^ on a linear history: the subjects of the commits
strictly between the two tagged commits. -/
def commitSubjectsBetween (env : Env) (prev cur : String) : List String :=
  match lookupIdx env.tagIndex prev, lookupIdx env.tagIndex cur with
  | some p, some c => ((env.history.drop (p + 1)).take (c - (p + 1))).map Prod.snd
  | _, _ => []

/-- create_github_release (source lines 82-121): fall back to the manual
reminder when the which-hub output says not found or when the tag pipeline
yields fewer than two entries; otherwise synthesize notes from the commit
subjects between the last two qualifying tags and invoke hub release
create (modelled as succeeding). -/
def create_github_release (env : Env) : StepOut :=
  if containsStr env.whichHubOut "not found" then ([.releaseFallback], none)
  else
    match lastTwo (qualifyingTags env) with
    | [previousVersion, currentVersion] =>
      ([.out "Creating GitHub release", .out "", .out "    ",
        .releaseCreate currentVersion
          ((commitSubjectsBetween env previousVersion currentVersion).map (fun s => "- " ++ s))],
       none)
    | _ => ([.releaseFallback], none)

/-- The publish block (source lines 245-250): yarn publish, on the rc
distribution channel exactly when the run is a prerelease run. -/
def publishStep (env : Env) : StepOut :=
  ([.out "Publishing release", .publish env.isRC], none)

/-- The whole script, as the ordered list of its fragments (source lines
145-253): validation, help, prerequisites, repository state, install,
bump, build, test, signature check, push, release creation (non-prerelease
runs only), publish, final success message. -/
def pipeline (env : Env) : List StepOut :=
  [argCheck env, helpCheck env, verify_prerequisites env, repoStateCheck env,
   installStep env, bumpStep env, buildStep env, testStep env,
   verify_commit_is_signed env, pushStep,
   (if env.isRC then ([], none) else create_github_release env),
   publishStep env,
   ([.out "Publish successful!", .out ""], none)]

/-- Run the script: the trace of events and the process exit code. -/
def runScript (env : Env) : List Event × Nat :=
  match runList (pipeline env) with
  | (es, some c) => (es, c)
  | (es, none) => (es, 0)

/-- The messages of the first failing check in a check list, if any. -/
def firstFailure : List (Bool × List String) → Option (List String)
  | [] => none
  | (ok, msgs) :: rest => if ok then firstFailure rest else some msgs

/-- Events that only the push / release-creation / publish tail of the
script can emit. -/
def isLate : Event → Bool
  | .push => true
  | .publish _ => true
  | .releaseCreate _ _ => true
  | .releaseFallback => true
  | _ => false

/-- A fully healthy non-prerelease environment: a patch release from a
repository on an up-to-date, clean master, with two qualifying version
tags v1.3.1 and v1.3.2 and two commits strictly between them. -/
def goodEnv : Env where
  isRC := false
  args := ["patch"]
  npmLoggedIn := true
  yarnLoggedIn := true
  hubPresent := true
  githubToken := "tok"
  gpgFormat := "ssh"
  signingKey := "/home/dev/.ssh/id_ed25519.pub"
  signingKeyExists := true
  commitGpgsign := "true"
  gitStatus := "On branch master\nYour branch is up to date with \x27origin/master\x27.\n\nnothing to commit, working tree clean"
  installCode := 0
  buildCode := 0
  testCode := 0
  headHash := "a3"
  headSigStatus := "G"
  whichHubOut := "/usr/local/bin/hub"
  tags := ["v1.3.1", "v1.3.2"]
  history := [("a0", "release v1.3.1"), ("a1", "Fix foo"), ("a2", "Add bar"), ("a3", "release v1.3.2")]
  tagIndex := [("v1.3.1", 0), ("v1.3.2", 3)]

/-- goodEnv invoked with a help token on a non-prerelease run. -/
def envHelpNonRC : Env := { goodEnv with args := ["--help"] }

/-- goodEnv invoked with a help token on a prerelease run. -/
def envHelpRC : Env := { goodEnv with isRC := true, args := ["--help"] }

/-- goodEnv with the release-hosting CLI absent from the path. -/
def envNoHub : Env := { goodEnv with hubPresent := false }

/-- A healthy environment with three qualifying version tags. -/
def envThreeTags : Env :=
  { goodEnv with
    headHash := "b5"
    tags := ["v1.3.0", "v1.3.1", "v1.3.2"]
    history := [("b0", "release v1.3.0"), ("b1", "Old fix"), ("b2", "release v1.3.1"),
                ("b3", "Fix foo"), ("b4", "Add bar"), ("b5", "release v1.3.2")]
    tagIndex := [("v1.3.0", 0), ("v1.3.1", 2), ("v1.3.2", 5)] }

/-- goodEnv whose most recent commit carries a bad (unverifiable)
signature: %G? status B. -/
def envBadSig : Env := { goodEnv with headSigStatus := "B" }

/-- goodEnv whose most recent commit is unsigned: %G? status N. -/
def envNoSig : Env := { goodEnv with headSigStatus := "N" }

/-- goodEnv without a yarn login. -/
def envYarnOut : Env := { goodEnv with yarnLoggedIn := false }

/-- goodEnv on the wrong branch. -/
def envWrongBranch : Env :=
  { goodEnv with gitStatus := "On branch develop\nYour branch is up to date with \x27origin/develop\x27.\n\nnothing to commit, working tree clean" }

/-- goodEnv invoked with an unrecognized release type. -/
def envBogusArg : Env := { goodEnv with args := ["bogus"] }

/-- A prerelease run invoked with the unvalidated argument foo. -/
def envRCFoo : Env := { goodEnv with isRC := true, args := ["foo"] }

/-- goodEnv whose build fails with exit code 2. -/
def envBuildFail : Env := { goodEnv with buildCode := 2 }

/-- goodEnv whose test suite fails with exit code 3. -/
def envTestFail : Env := { goodEnv with testCode := 3 }

/-- Sequencing after an exiting fragment keeps its events and exit code. -/
@[simp]
theorem thenDo_stop (es : List Event) (c : Nat) (b : StepOut) :
    thenDo (es, some c) b = (es, some c) := rfl

/-- Sequencing after a continuing fragment appends the next fragment. -/
@[simp]
theorem thenDo_go (es : List Event) (b : StepOut) :
    thenDo (es, none) b = (es ++ b.1, b.2) := rfl

/-- The trace of a run is the trace of its fragment list. -/
theorem runScript_fst (env : Env) : (runScript env).1 = (runList (pipeline env)).1 := by
  unfold runScript
  rcases runList (pipeline env) with ⟨es, oc⟩
  cases oc <;> rfl

/-- If every check passes, the check loop prints the success line. -/
theorem runChecks_pass : ∀ cs : List (Bool × List String), firstFailure cs = none →
    runChecks cs = ([.out "All prerequisites verified successfully!"], none) := by
  intro cs
  induction cs with
  | nil => intro _; rfl
  | cons p rest ih =>
    rcases p with ⟨ok, msgs⟩
    cases ok
    · intro h; simp [firstFailure] at h
    · intro h
      simp only [firstFailure, if_pos] at h
      simpa [runChecks] using ih h

/-- The check loop stops at the first failing check, printing exactly its
messages and exiting 1. -/
theorem runChecks_fail : ∀ cs : List (Bool × List String), ∀ ms,
    firstFailure cs = some ms → runChecks cs = (ms.map Event.out, some 1) := by
  intro cs
  induction cs with
  | nil => intro ms h; simp [firstFailure] at h
  | cons p rest ih =>
    rcases p with ⟨ok, msgs⟩
    cases ok
    · intro ms h
      simp [firstFailure] at h
      simp [runChecks, h]
    · intro ms h
      simp only [firstFailure, if_pos] at h
      simpa [runChecks] using ih ms h

/-- Every event the check loop emits is a printed line. -/
theorem ev_runChecks : ∀ cs : List (Bool × List String), ∀ e ∈ (runChecks cs).1,
    ∃ s, e = Event.out s := by
  intro cs
  induction cs with
  | nil =>
    intro e he
    simp [runChecks] at he
    exact ⟨_, he⟩
  | cons p rest ih =>
    rcases p with ⟨ok, msgs⟩
    cases ok
    · intro e he
      simp [runChecks] at he
      rcases he with ⟨s, _, rfl⟩
      exact ⟨s, rfl⟩
    · intro e he
      simp only [runChecks, if_pos] at he
      exact ih e he

/-- Every event of the validation block is a printed line or the usage
text. -/
theorem ev_argCheck (env : Env) : ∀ e ∈ (argCheck env).1,
    e = Event.usage ∨ ∃ s, e = Event.out s := by
  intro e he
  unfold argCheck at he
  split at he
  · simp at he
  · split at he
    · simp at he
      rcases he with rfl | rfl | rfl
      · exact Or.inr ⟨_, rfl⟩
      · exact Or.inr ⟨_, rfl⟩
      · exact Or.inl rfl
    · split at he
      · simp at he
      · simp at he
        rcases he with rfl | rfl | rfl
        · exact Or.inr ⟨_, rfl⟩
        · exact Or.inr ⟨_, rfl⟩
        · exact Or.inl rfl

/-- Every event of the help block is the usage text. -/
theorem ev_helpCheck (env : Env) : ∀ e ∈ (helpCheck env).1, e = Event.usage := by
  intro e he
  unfold helpCheck at he
  split at he
  · simp at he; exact he
  · simp at he

/-- Every event of verify_prerequisites is a printed line. -/
theorem ev_prereq (env : Env) : ∀ e ∈ (verify_prerequisites env).1,
    ∃ s, e = Event.out s := by
  intro e he
  unfold verify_prerequisites at he
  rw [thenDo_go] at he
  simp at he
  rcases he with rfl | he
  · exact ⟨_, rfl⟩
  · exact ev_runChecks _ e he

/-- Every event of the repository-state block is a printed line or the
fetch action. -/
theorem ev_repoState (env : Env) : ∀ e ∈ (repoStateCheck env).1,
    e = Event.fetch ∨ ∃ s, e = Event.out s := by
  intro e he
  unfold repoStateCheck at he
  rw [thenDo_go] at he
  simp at he
  rcases he with rfl | rfl | he
  · exact Or.inr ⟨_, rfl⟩
  · exact Or.inl rfl
  · split at he
    · simp at he; exact Or.inr ⟨_, he⟩
    · split at he
      · simp at he; exact Or.inr ⟨_, he⟩
      · split at he
        · simp at he; exact Or.inr ⟨_, he⟩
        · simp at he

/-- Every event of the signature check is a printed line. -/
theorem ev_sig (env : Env) : ∀ e ∈ (verify_commit_is_signed env).1,
    ∃ s, e = Event.out s := by
  intro e he
  unfold verify_commit_is_signed at he
  split at he
  · simp at he
    rcases he with rfl | rfl
    · exact ⟨_, rfl⟩
    · exact ⟨_, rfl⟩
  · simp at he

/-- Every event of release creation is a printed line, a created release
or the fallback reminder. -/
theorem ev_release (env : Env) : ∀ e ∈ (create_github_release env).1,
    (∃ s, e = Event.out s) ∨ e = Event.releaseFallback ∨
      ∃ v t, e = Event.releaseCreate v t := by
  intro e he
  unfold create_github_release at he
  split at he
  · simp at he
    exact Or.inr (Or.inl he)
  · split at he
    · simp at he
      rcases he with rfl | rfl | rfl | rfl
      · exact Or.inl ⟨_, rfl⟩
      · exact Or.inl ⟨_, rfl⟩
      · exact Or.inl ⟨_, rfl⟩
      · exact Or.inr (Or.inr ⟨_, _, rfl⟩)
    · simp at he
      exact Or.inr (Or.inl he)

/-- Release creation never exits the script. -/
theorem create_release_go (env : Env) : (create_github_release env).2 = none := by
  unfold create_github_release
  split
  · rfl
  · split <;> rfl

/-- An event of a fragment list run comes from one of its fragments. -/
theorem mem_runList {e : Event} : ∀ l : List StepOut, e ∈ (runList l).1 →
    ∃ s ∈ l, e ∈ s.1 := by
  intro l
  induction l with
  | nil => intro h; simp [runList] at h
  | cons s rest ih =>
    intro h
    rcases s with ⟨es, oc⟩
    cases oc with
    | some c =>
      rw [runList, thenDo_stop] at h
      exact ⟨(es, some c), by simp, h⟩
    | none =>
      rw [runList, thenDo_go] at h
      simp only [List.mem_append] at h
      rcases h with h | h
      · exact ⟨(es, none), by simp, h⟩
      · rcases ih h with ⟨t, ht, he⟩
        exact ⟨t, by simp [ht], he⟩

/-- An event of a run that contains an exiting fragment comes from a
fragment at or before the exiting one. -/
theorem runList_stop_mem {e : Event} : ∀ (l1 : List StepOut) (s : StepOut)
    (l2 : List StepOut) (c : Nat), s.2 = some c →
    e ∈ (runList (l1 ++ s :: l2)).1 → (∃ t ∈ l1, e ∈ t.1) ∨ e ∈ s.1 := by
  intro l1
  induction l1 with
  | nil =>
    intro s l2 c hs he
    rcases s with ⟨es, oc⟩
    cases oc with
    | none => simp at hs
    | some c2 =>
      rw [List.nil_append, runList, thenDo_stop] at he
      exact Or.inr he
  | cons t rest ih =>
    intro s l2 c hs he
    rcases t with ⟨es, oc⟩
    cases oc with
    | some c2 =>
      rw [List.cons_append, runList, thenDo_stop] at he
      exact Or.inl ⟨(es, some c2), by simp, he⟩
    | none =>
      rw [List.cons_append, runList, thenDo_go] at he
      simp only [List.mem_append] at he
      rcases he with he | he
      · exact Or.inl ⟨(es, none), by simp, he⟩
      · rcases ih s l2 c hs he with ⟨t2, ht2, he2⟩ | he2
        · exact Or.inl ⟨t2, by simp [ht2], he2⟩
        · exact Or.inr he2

/-- When a prefix of fragments all continue, the run trace starts with
their concatenated events. -/
theorem runList_append_go : ∀ (l1 l2 : List StepOut), (∀ t ∈ l1, t.2 = none) →
    (runList (l1 ++ l2)).1 = (l1.map Prod.fst).flatten ++ (runList l2).1 := by
  intro l1
  induction l1 with
  | nil => intro l2 _; simp
  | cons t rest ih =>
    intro l2 hall
    rcases t with ⟨es, oc⟩
    have ht : oc = none := hall (es, oc) (by simp)
    subst ht
    rw [List.cons_append, runList, thenDo_go]
    simp only [List.map_cons, List.flatten]
    rw [ih l2 (fun t2 ht2 => hall t2 (by simp [ht2]))]
    simp [List.append_assoc]

/-- A run that passes argument validation and whose prerequisite checks
contain a failure prints the verification banner plus exactly the
messages of the first failing check and exits 1. -/
theorem prereq_fail_run (env : Env) (ms : List String)
    (hval : argCheck env = ([], none)) (hhlp : helpCheck env = ([], none))
    (hff : firstFailure (prereqChecks env) = some ms) :
    runScript env = (Event.out "Verifying prerequisites..." :: ms.map Event.out, 1) := by
  have hvp : verify_prerequisites env =
      (Event.out "Verifying prerequisites..." :: ms.map Event.out, some 1) := by
    simp [verify_prerequisites, runChecks_fail _ _ hff]
  have hrun : runList (pipeline env) =
      (Event.out "Verifying prerequisites..." :: ms.map Event.out, some 1) := by
    simp [pipeline, runList, hval, hhlp, hvp]
  unfold runScript
  rw [hrun]

/-- A run that passes argument validation and the prerequisite checks but
stops inside the repository-state block emits only printed lines and the
fetch action. -/
theorem stop_before_install (env : Env) (e : Event)
    (hval : argCheck env = ([], none)) (hhlp : helpCheck env = ([], none))
    (hstop : (repoStateCheck env).2 = some 1)
    (he : e ∈ (runScript env).1) :
    e = Event.fetch ∨ ∃ s, e = Event.out s := by
  have hsplit : pipeline env = [argCheck env, helpCheck env, verify_prerequisites env] ++
      repoStateCheck env :: [installStep env, bumpStep env, buildStep env, testStep env,
      verify_commit_is_signed env, pushStep,
      (if env.isRC then ([], none) else create_github_release env),
      publishStep env, ([.out "Publish successful!", .out ""], none)] := rfl
  rw [runScript_fst, hsplit] at he
  rcases runList_stop_mem _ _ _ _ hstop he with ⟨t, ht, he2⟩ | he2
  · simp only [List.mem_cons, List.not_mem_nil, or_false] at ht
    rcases ht with rfl | rfl | rfl
    · rw [hval] at he2; simp at he2
    · rw [hhlp] at he2; simp at he2
    · exact Or.inr (ev_prereq env e he2)
  · exact ev_repoState env e he2

/-- C1: The version bump, as a function of the current version and the
pair (isPrerelease, releaseType), satisfies the transition table:
(false, 1.2.3, patch) gives 1.2.4; (true, 1.2.3, none) gives 1.2.3-rc.0;
(true, 1.2.3-rc.0, none) gives 1.2.3-rc.1; (true, 1.2.3-rc.0, patch)
gives 1.2.4-rc.0; (false, 1.2.3-rc.0, major) gives 2.0.0; and every
non-prerelease run bumps the specified component and strips any
prerelease suffix. -/
theorem c1_bump_table :
    Option.map Version.render (bumpOutcome false "patch" ⟨1, 2, 3, none⟩) = some "1.2.4" ∧
    Option.map Version.render (bumpOutcome true "" ⟨1, 2, 3, none⟩) = some "1.2.3-rc.0" ∧
    Option.map Version.render (bumpOutcome true "" ⟨1, 2, 3, some 0⟩) = some "1.2.3-rc.1" ∧
    Option.map Version.render (bumpOutcome true "patch" ⟨1, 2, 3, some 0⟩) = some "1.2.4-rc.0" ∧
    Option.map Version.render (bumpOutcome false "major" ⟨1, 2, 3, some 0⟩) = some "2.0.0" ∧
    (∀ v : Version, bumpOutcome false "patch" v = some ⟨v.major, v.minor, v.patch + 1, none⟩) ∧
    (∀ v : Version, bumpOutcome false "minor" v = some ⟨v.major, v.minor + 1, 0, none⟩) ∧
    (∀ v : Version, bumpOutcome false "major" v = some ⟨v.major + 1, 0, 0, none⟩) :=
  ⟨by decide, by decide, by decide, by decide, by decide,
   fun _ => rfl, fun _ => rfl, fun _ => rfl⟩

/-- C2 counterexample: on a non-prerelease run whose first argument is the
help token --help (and whose prerequisites and repository state are all
healthy), the run exits 1, not 0: the help block runs only after the
release-type validation block, which rejects --help as an invalid release
type. -/
theorem c2_counterexample :
    envHelpNonRC.args = ["--help"] ∧ (runScript envHelpNonRC).2 = 1 ∧
      ¬(runScript envHelpNonRC).2 = 0 := by decide

/-- C2 amended: a help token (-h, --help, help) as first argument prints
usage and exits 0 on prerelease runs, regardless of any other state; on a
non-prerelease run a help token instead hits release-type validation and
the run prints usage but exits 1. -/
theorem c2_amended (env : Env) :
    (env.isRC = true →
      firstArg env ∈ (["-h", "--help", "help"] : List String) →
      runScript env = ([Event.usage], 0)) ∧
    (env.isRC = false →
      firstArg env ∈ (["-h", "--help", "help"] : List String) →
      (runScript env).2 = 1 ∧ Event.usage ∈ (runScript env).1) := by
  constructor
  · intro hrc hh
    have hrun : runList (pipeline env) = ([Event.usage], some 0) := by
      simp [pipeline, runList, argCheck, helpCheck, hrc, hh]
    unfold runScript
    rw [hrun]
  · intro hrc hh
    have hlen : ¬env.args.length = 0 := by
      rcases henv : env.args with _ | ⟨a, t⟩
      · simp [firstArg, henv] at hh
      · simp [henv]
    have hnm : firstArg env ∉ (["patch", "minor", "major"] : List String) := by
      simp at hh
      rcases hh with h | h | h <;> rw [h] <;> decide
    have hrun : runList (pipeline env) =
        ([.out "Error! Invalid release type supplied", .out "", .usage], some 1) := by
      simp [pipeline, runList, argCheck, hrc, hlen, hnm]
    unfold runScript
    rw [hrun]
    simp

/-- C2 witness: the amended statement applied to a concrete prerelease
run invoked with --help. -/
theorem c2_witness : runScript envHelpRC = ([Event.usage], 0) :=
  (c2_amended envHelpRC).1 rfl (by decide)

/-- C9: on every non-prerelease run whose release-type argument is absent
or outside patch/minor/major, the run prints the usage message and exits
with code 1. -/
theorem c9_invalid_release_type (env : Env) (hrc : env.isRC = false)
    (hbad : firstArg env ∉ (["patch", "minor", "major"] : List String)) :
    (runScript env).2 = 1 ∧ Event.usage ∈ (runScript env).1 := by
  by_cases hlen : env.args.length = 0
  · have hrun : runList (pipeline env) =
        ([.out "Error! Missing release type argument", .out "", .usage], some 1) := by
      simp [pipeline, runList, argCheck, hrc, hlen]
    unfold runScript
    rw [hrun]
    simp
  · have hrun : runList (pipeline env) =
        ([.out "Error! Invalid release type supplied", .out "", .usage], some 1) := by
      simp [pipeline, runList, argCheck, hrc, hlen, hbad]
    unfold runScript
    rw [hrun]
    simp

/-- C9 witness: the statement applied to a concrete run invoked with the
unrecognized release type bogus. -/
theorem c9_witness :
    (runScript envBogusArg).2 = 1 ∧ Event.usage ∈ (runScript envBogusArg).1 :=
  c9_invalid_release_type envBogusArg rfl (by decide)

/-- C10: on a prerelease run, the release-type argument is never
validated: any non-help first argument passes argument validation without
printing usage or exiting, and (when non-empty, so the -z test of the script
fails) is spliced verbatim into the version-bump flags as --pre followed
by the argument, with no usage message anywhere in the run. -/
theorem c10_unvalidated_splice (env : Env) (a : String)
    (hrc : env.isRC = true) (ha : firstArg env = a)
    (hnh : a ∉ (["-h", "--help", "help"] : List String)) :
    argCheck env = ([], none) ∧ helpCheck env = ([], none) ∧
    (¬a = "" →
      firstFailure (prereqChecks env) = none →
      containsStr env.gitStatus "On branch master" = true →
      containsStr env.gitStatus "Your branch is up to date with \x27origin/master\x27." = true →
      containsStr env.gitStatus "working tree clean" = true →
      env.installCode = 0 →
      Event.bump ["--pre" ++ a, "--preid=rc"] ∈ (runScript env).1 ∧
        Event.usage ∉ (runScript env).1) := by
  have hac : argCheck env = ([], none) := by simp [argCheck, hrc]
  have hhc : helpCheck env = ([], none) := by simp [helpCheck, ha, hnh]
  refine ⟨hac, hhc, ?_⟩
  intro hemp hpre h1 h2 h3 hinst
  have hflags : releaseFlags env = ["--pre" ++ a, "--preid=rc"] := by
    simp [releaseFlags, releaseFlagsOf, hrc, ha, hemp]
  have hvp : verify_prerequisites env =
      ([.out "Verifying prerequisites...", .out "All prerequisites verified successfully!"], none) := by
    simp [verify_prerequisites, runChecks_pass _ hpre]
  have hrs : repoStateCheck env = ([.out "Fetching git remotes", .fetch], none) := by
    simp [repoStateCheck, h1, h2, h3]
  have hall : ∀ t ∈ [argCheck env, helpCheck env, verify_prerequisites env,
      repoStateCheck env, installStep env, bumpStep env], t.2 = none := by
    intro t ht
    simp only [List.mem_cons, List.not_mem_nil, or_false] at ht
    rcases ht with rfl | rfl | rfl | rfl | rfl | rfl
    · rw [hac]
    · rw [hhc]
    · rw [hvp]
    · rw [hrs]
    · simp [installStep, hinst]
    · simp [bumpStep]
  have htr : (runScript env).1 =
      ([argCheck env, helpCheck env, verify_prerequisites env, repoStateCheck env,
        installStep env, bumpStep env].map Prod.fst).flatten ++
      (runList [buildStep env, testStep env, verify_commit_is_signed env, pushStep,
        (if env.isRC then ([], none) else create_github_release env), publishStep env,
        ([.out "Publish successful!", .out ""], none)]).1 := by
    rw [runScript_fst]
    exact runList_append_go _ _ hall
  constructor
  · rw [htr, hac, hhc, hvp, hrs]
    simp [installStep, bumpStep, hflags]
  · intro hmem
    rw [htr, hac, hhc, hvp, hrs] at hmem
    rw [List.mem_append] at hmem
    rcases hmem with hmem | hmem
    · simp [installStep, bumpStep] at hmem
    · rcases mem_runList _ hmem with ⟨s, hs, hes⟩
      simp only [List.mem_cons, List.not_mem_nil, or_false] at hs
      rcases hs with rfl | rfl | rfl | rfl | rfl | rfl | rfl
      · simp [buildStep] at hes
      · simp [testStep] at hes
      · rcases ev_sig env _ hes with ⟨s2, heq⟩
        simp at heq
      · simp [pushStep] at hes
      · rw [if_pos hrc] at hes
        simp at hes
      · simp [publishStep] at hes
      · simp at hes

/-- C10 witness: the statement applied to a concrete prerelease run
invoked with the argument foo, which reaches the bump with --prefoo. -/
theorem c10_witness :
    Event.bump ["--prefoo", "--preid=rc"] ∈ (runScript envRCFoo).1 ∧
      Event.usage ∉ (runScript envRCFoo).1 :=
  (c10_unvalidated_splice envRCFoo "foo" rfl rfl (by decide)).2.2 (by decide)
    (by decide) (by decide) (by decide) (by decide) rfl

/-- C3 counterexample: with the hub CLI absent (and every other
prerequisite healthy, on an otherwise releasable repository), the run
aborts during prerequisite verification with exit 1 and never reaches the
manual-instructions fallback, contradicting the claim that the presence
check is advisory. -/
theorem c3_counterexample :
    envNoHub.hubPresent = false ∧ (runScript envNoHub).2 = 1 ∧
      Event.releaseFallback ∉ (runScript envNoHub).1 ∧
      Event.install ∉ (runScript envNoHub).1 := by decide

/-- C3 amended: the hub presence check is fatal, not advisory: on any run
that passes argument validation with npm and yarn logged in but hub
absent, prerequisite verification prints the hub remediation message and
exits 1, and no later step (in particular no release-note creation and no
fallback) runs. -/
theorem c3_hub_fatal (env : Env)
    (hval : argCheck env = ([], none)) (hhlp : helpCheck env = ([], none))
    (hnpm : env.npmLoggedIn = true) (hyarn : env.yarnLoggedIn = true)
    (hhub : env.hubPresent = false) :
    runScript env =
      ([.out "Verifying prerequisites...", .out "Error! \x27hub\x27 command not found.",
        .out "Please install hub with \x27brew install hub\x27."], 1) ∧
    Event.releaseFallback ∉ (runScript env).1 ∧
    (∀ v t, Event.releaseCreate v t ∉ (runScript env).1) ∧
    Event.install ∉ (runScript env).1 := by
  have hff : firstFailure (prereqChecks env) =
      some ["Error! \x27hub\x27 command not found.",
            "Please install hub with \x27brew install hub\x27."] := by
    simp [prereqChecks, firstFailure, hnpm, hyarn, hhub]
  have h1 := prereq_fail_run env _ hval hhlp hff
  refine ⟨by rw [h1]; rfl, ?_, fun v t => ?_, ?_⟩ <;> rw [h1] <;> simp

/-- C3 witness: the amended statement applied to the concrete hub-less
environment. -/
theorem c3_witness :
    runScript envNoHub =
      ([.out "Verifying prerequisites...", .out "Error! \x27hub\x27 command not found.",
        .out "Please install hub with \x27brew install hub\x27."], 1) ∧
    Event.releaseFallback ∉ (runScript envNoHub).1 ∧
    (∀ v t, Event.releaseCreate v t ∉ (runScript envNoHub).1) ∧
    Event.install ∉ (runScript envNoHub).1 :=
  c3_hub_fatal envNoHub rfl rfl rfl rfl rfl

/-- C6: on a run that passes argument validation, if a prerequisite check
fails then the run aborts at exactly the first failing check: it exits 1
right after printing the remediation messages of that check, and no install,
bump, build, test, push or publish action ever occurs. -/
theorem c6_prereq_abort (env : Env) (ms : List String)
    (hval : argCheck env = ([], none)) (hhlp : helpCheck env = ([], none))
    (hff : firstFailure (prereqChecks env) = some ms) :
    runScript env = (Event.out "Verifying prerequisites..." :: ms.map Event.out, 1) ∧
    Event.install ∉ (runScript env).1 ∧ (∀ fl, Event.bump fl ∉ (runScript env).1) ∧
    Event.build ∉ (runScript env).1 ∧ Event.testRun ∉ (runScript env).1 ∧
    Event.push ∉ (runScript env).1 ∧ (∀ b, Event.publish b ∉ (runScript env).1) := by
  have h1 := prereq_fail_run env ms hval hhlp hff
  refine ⟨h1, ?_, fun fl => ?_, ?_, ?_, ?_, fun b => ?_⟩ <;> rw [h1] <;> simp

/-- C6 witness: the statement applied to a concrete run whose yarn login
check fails. -/
theorem c6_witness :
    runScript envYarnOut =
      (Event.out "Verifying prerequisites..." ::
        (["Error! You are not logged in to yarn.",
          "Please run \x27yarn login\x27 and try again."].map Event.out), 1) ∧
    Event.install ∉ (runScript envYarnOut).1 ∧
    (∀ fl, Event.bump fl ∉ (runScript envYarnOut).1) ∧
    Event.build ∉ (runScript envYarnOut).1 ∧ Event.testRun ∉ (runScript envYarnOut).1 ∧
    Event.push ∉ (runScript envYarnOut).1 ∧
    (∀ b, Event.publish b ∉ (runScript envYarnOut).1) :=
  c6_prereq_abort envYarnOut _ rfl rfl (by decide)

/-- C8: the repository-state check runs only after all prerequisites pass
(no fetch happens when a prerequisite fails), requires the master branch,
an up-to-date branch and a clean working tree in that order, aborts with
exit 1 and a specific message on the first violation, and on any violation
no install, bump or build action occurs. -/
theorem c8_repo_state (env : Env)
    (hval : argCheck env = ([], none)) (hhlp : helpCheck env = ([], none)) :
    (∀ ms, firstFailure (prereqChecks env) = some ms →
      Event.fetch ∉ (runScript env).1) ∧
    (firstFailure (prereqChecks env) = none →
      ((containsStr env.gitStatus "On branch master" = false →
        runScript env =
          ([.out "Verifying prerequisites...", .out "All prerequisites verified successfully!",
            .out "Fetching git remotes", .fetch,
            .out "Error! Must be on master branch to publish"], 1)) ∧
       (containsStr env.gitStatus "On branch master" = true →
        containsStr env.gitStatus "Your branch is up to date with \x27origin/master\x27." = false →
        runScript env =
          ([.out "Verifying prerequisites...", .out "All prerequisites verified successfully!",
            .out "Fetching git remotes", .fetch,
            .out "Error! Must be up to date with origin/master to publish"], 1)) ∧
       (containsStr env.gitStatus "On branch master" = true →
        containsStr env.gitStatus "Your branch is up to date with \x27origin/master\x27." = true →
        containsStr env.gitStatus "working tree clean" = false →
        runScript env =
          ([.out "Verifying prerequisites...", .out "All prerequisites verified successfully!",
            .out "Fetching git remotes", .fetch,
            .out "Error! Cannot publish with dirty working tree"], 1)) ∧
       ((containsStr env.gitStatus "On branch master" = false ∨
         containsStr env.gitStatus "Your branch is up to date with \x27origin/master\x27." = false ∨
         containsStr env.gitStatus "working tree clean" = false) →
         Event.install ∉ (runScript env).1 ∧ (∀ fl, Event.bump fl ∉ (runScript env).1) ∧
           Event.build ∉ (runScript env).1))) := by
  constructor
  · intro ms hff hmem
    rw [prereq_fail_run env ms hval hhlp hff] at hmem
    simp at hmem
  · intro hpre
    have hvp : verify_prerequisites env =
        ([.out "Verifying prerequisites...", .out "All prerequisites verified successfully!"],
          none) := by
      simp [verify_prerequisites, runChecks_pass _ hpre]
    refine ⟨?_, ?_, ?_, ?_⟩
    · intro hm
      have hrun : runList (pipeline env) =
          ([.out "Verifying prerequisites...", .out "All prerequisites verified successfully!",
            .out "Fetching git remotes", .fetch,
            .out "Error! Must be on master branch to publish"], some 1) := by
        simp [pipeline, runList, hval, hhlp, hvp, repoStateCheck, hm]
      unfold runScript
      rw [hrun]
    · intro hm hu
      have hrun : runList (pipeline env) =
          ([.out "Verifying prerequisites...", .out "All prerequisites verified successfully!",
            .out "Fetching git remotes", .fetch,
            .out "Error! Must be up to date with origin/master to publish"], some 1) := by
        simp [pipeline, runList, hval, hhlp, hvp, repoStateCheck, hm, hu]
      unfold runScript
      rw [hrun]
    · intro hm hu hc
      have hrun : runList (pipeline env) =
          ([.out "Verifying prerequisites...", .out "All prerequisites verified successfully!",
            .out "Fetching git remotes", .fetch,
            .out "Error! Cannot publish with dirty working tree"], some 1) := by
        simp [pipeline, runList, hval, hhlp, hvp, repoStateCheck, hm, hu, hc]
      unfold runScript
      rw [hrun]
    · intro hdis
      have hstop : (repoStateCheck env).2 = some 1 := by
        unfold repoStateCheck
        rw [thenDo_go]
        rcases hdis with hm | hu | hc
        · simp [hm]
        · by_cases hm : containsStr env.gitStatus "On branch master" = true
          · simp [hm, hu]
          · rw [Bool.not_eq_true] at hm
            simp [hm]
        · by_cases hm : containsStr env.gitStatus "On branch master" = true
          · by_cases hu : containsStr env.gitStatus
                "Your branch is up to date with \x27origin/master\x27." = true
            · simp [hm, hu, hc]
            · rw [Bool.not_eq_true] at hu
              simp [hm, hu]
          · rw [Bool.not_eq_true] at hm
            simp [hm]
      refine ⟨?_, fun fl => ?_, ?_⟩ <;> intro hmem <;>
        rcases stop_before_install env _ hval hhlp hstop hmem with h | ⟨s, h⟩ <;>
        simp at h

/-- On a run where every gate through the signature check passes, the
trace is the linear sequence through the push action followed by the
events of the remaining fragments. -/
theorem happy_prefix_events (env : Env)
    (hval : argCheck env = ([], none)) (hhlp : helpCheck env = ([], none))
    (hpre : firstFailure (prereqChecks env) = none)
    (h1 : containsStr env.gitStatus "On branch master" = true)
    (h2 : containsStr env.gitStatus "Your branch is up to date with \x27origin/master\x27." = true)
    (h3 : containsStr env.gitStatus "working tree clean" = true)
    (hinst : env.installCode = 0) (hbuild : env.buildCode = 0) (htest : env.testCode = 0)
    (hsig : containsStr env.headSigStatus "N" = false) :
    (runScript env).1 =
      [.out "Verifying prerequisites...", .out "All prerequisites verified successfully!",
       .out "Fetching git remotes", .fetch,
       .out "Installing dependencies according to lockfile", .install,
       .out ("Bumping package.json " ++ firstArg env ++ " version and tagging commit"),
       .bump (releaseFlags env), .out "Building", .build, .out "Running tests", .testRun,
       .out "Pushing git commit and tag", .push] ++
      (runList [(if env.isRC then ([], none) else create_github_release env),
        publishStep env, ([.out "Publish successful!", .out ""], none)]).1 := by
  have hvp : verify_prerequisites env =
      ([.out "Verifying prerequisites...", .out "All prerequisites verified successfully!"],
        none) := by
    simp [verify_prerequisites, runChecks_pass _ hpre]
  have hrs : repoStateCheck env = ([.out "Fetching git remotes", .fetch], none) := by
    simp [repoStateCheck, h1, h2, h3]
  have hsg : verify_commit_is_signed env = ([], none) := by
    simp [verify_commit_is_signed, hsig]
  have hall : ∀ t ∈ [argCheck env, helpCheck env, verify_prerequisites env, repoStateCheck env,
      installStep env, bumpStep env, buildStep env, testStep env, verify_commit_is_signed env,
      pushStep], t.2 = none := by
    intro t ht
    simp only [List.mem_cons, List.not_mem_nil, or_false] at ht
    rcases ht with rfl | rfl | rfl | rfl | rfl | rfl | rfl | rfl | rfl | rfl
    · rw [hval]
    · rw [hhlp]
    · rw [hvp]
    · rw [hrs]
    · simp [installStep, hinst]
    · simp [bumpStep]
    · simp [buildStep, hbuild]
    · simp [testStep, htest]
    · rw [hsg]
    · simp [pushStep]
  have hsplit : pipeline env = [argCheck env, helpCheck env, verify_prerequisites env,
      repoStateCheck env, installStep env, bumpStep env, buildStep env, testStep env,
      verify_commit_is_signed env, pushStep] ++
      [(if env.isRC then ([], none) else create_github_release env), publishStep env,
       ([.out "Publish successful!", .out ""], none)] := rfl
  rw [runScript_fst, hsplit, runList_append_go _ _ hall, hval, hhlp, hvp, hrs, hsg]
  simp [installStep, bumpStep, buildStep, testStep, pushStep]

/-- C8 witness: the statement applied to a concrete run on the develop
branch. -/
theorem c8_witness :
    runScript envWrongBranch =
      ([.out "Verifying prerequisites...", .out "All prerequisites verified successfully!",
        .out "Fetching git remotes", .fetch,
        .out "Error! Must be on master branch to publish"], 1) ∧
    Event.install ∉ (runScript envWrongBranch).1 :=
  ⟨((c8_repo_state envWrongBranch rfl rfl).2 (by decide)).1 (by decide),
   (((c8_repo_state envWrongBranch rfl rfl).2 (by decide)).2.2.2 (Or.inl (by decide))).1⟩

/-- C4 counterexample: with three qualifying non-prerelease tags, the run
creates a release from the last two of them instead of producing the
fallback message, contradicting the claim that more than two such tags
lead to the fallback. -/
theorem c4_counterexample :
    (qualifyingTags envThreeTags).length = 3 ∧
    Event.releaseCreate "v1.3.2" ["- Fix foo", "- Add bar"] ∈ (runScript envThreeTags).1 ∧
    Event.releaseFallback ∉ (runScript envThreeTags).1 ∧
    (runScript envThreeTags).2 = 0 := by decide

/-- C4 amended: release creation never exits the script; when the
which-hub probe does not report not found, fewer than two qualifying tags
produce the manual-instructions fallback, while a tag pipeline whose last
two entries are p and c produces a release on c whose notes list every
commit subject strictly between the commits tagged p and c. -/
theorem c4_release_notes (env : Env) :
    (create_github_release env).2 = none ∧
    (containsStr env.whichHubOut "not found" = false →
      ((qualifyingTags env).length < 2 →
        create_github_release env = ([.releaseFallback], none)) ∧
      (∀ p c, lastTwo (qualifyingTags env) = [p, c] →
        create_github_release env =
          ([.out "Creating GitHub release", .out "", .out "    ",
            .releaseCreate c ((commitSubjectsBetween env p c).map (fun s => "- " ++ s))],
           none) ∧
        (∀ ip ic, lookupIdx env.tagIndex p = some ip →
          lookupIdx env.tagIndex c = some ic →
          ∀ i pr, ip < i → i < ic → env.history[i]? = some pr →
            ("- " ++ pr.2) ∈ (commitSubjectsBetween env p c).map (fun s => "- " ++ s)))) := by
  refine ⟨create_release_go env, fun hhub => ⟨?_, fun p c hq => ⟨?_, ?_⟩⟩⟩
  · intro hlen
    have h0 : (qualifyingTags env).length - 2 = 0 := by omega
    have hlt : lastTwo (qualifyingTags env) = qualifyingTags env := by
      unfold lastTwo
      rw [h0, List.drop_zero]
    rcases hq2 : qualifyingTags env with _ | ⟨x, tl⟩
    · simp [create_github_release, hhub, hlt, hq2, lastTwo]
    · rcases tl with _ | ⟨y, tl2⟩
      · simp [create_github_release, hhub, hlt, hq2, lastTwo]
      · rw [hq2] at hlen
        simp at hlen
        omega
  · simp [create_github_release, hhub, hq]
  · intro ip ic hip hic i pr hlo hhi hpr
    have hsub : commitSubjectsBetween env p c =
        ((env.history.drop (ip + 1)).take (ic - (ip + 1))).map Prod.snd := by
      simp [commitSubjectsBetween, hip, hic]
    have hget : ((env.history.drop (ip + 1)).take (ic - (ip + 1)))[i - (ip + 1)]? =
        some pr := by
      rw [List.getElem?_take, if_pos (by omega), List.getElem?_drop]
      have heq : ip + 1 + (i - (ip + 1)) = i := by omega
      rw [heq]
      exact hpr
    have hmem : pr ∈ (env.history.drop (ip + 1)).take (ic - (ip + 1)) :=
      List.getElem?_mem hget
    rw [hsub]
    exact List.mem_map_of_mem _ (List.mem_map_of_mem _ hmem)

/-- C4 witness: the amended statement applied to the concrete healthy
environment, whose two qualifying tags delimit the commit subjects Fix
foo and Add bar. -/
theorem c4_witness :
    create_github_release goodEnv =
      ([.out "Creating GitHub release", .out "", .out "    ",
        .releaseCreate "v1.3.2" ["- Fix foo", "- Add bar"]], none) := by
  have h := (((c4_release_notes goodEnv).2 (by decide)).2 "v1.3.1" "v1.3.2" (by decide)).1
  rw [h]
  rfl

/-- A fragment list whose prefix all continues and whose next fragment
exits propagates that exit code to the whole run. -/
theorem runList_stop_exit : ∀ (l1 : List StepOut) (s : StepOut) (l2 : List StepOut)
    (c : Nat), (∀ t ∈ l1, t.2 = none) → s.2 = some c →
    (runList (l1 ++ s :: l2)).2 = some c := by
  intro l1
  induction l1 with
  | nil =>
    intro s l2 c _ hs
    rcases s with ⟨es, oc⟩
    cases oc with
    | none => simp at hs
    | some c2 =>
      rw [List.nil_append, runList, thenDo_stop]
      exact hs
  | cons t rest ih =>
    intro s l2 c hall hs
    rcases t with ⟨es, oc⟩
    have ht : oc = none := hall (es, oc) (by simp)
    subst ht
    rw [List.cons_append, runList, thenDo_go]
    exact ih s l2 c (fun t2 ht2 => hall t2 (by simp [ht2])) hs

/-- Exit-code propagation from the fragment list to the run. -/
theorem runScript_exit (env : Env) (c : Nat)
    (h : (runList (pipeline env)).2 = some c) : (runScript env).2 = c := by
  unfold runScript
  rcases hr : runList (pipeline env) with ⟨es, oc⟩
  rw [hr] at h
  cases oc with
  | none => simp at h
  | some c2 =>
    simp at h
    subst h
    rfl

/-- Any repository-state violation makes the block exit 1. -/
theorem repoStateCheck_stop (env : Env)
    (hdis : containsStr env.gitStatus "On branch master" = false ∨
      containsStr env.gitStatus "Your branch is up to date with \x27origin/master\x27." = false ∨
      containsStr env.gitStatus "working tree clean" = false) :
    (repoStateCheck env).2 = some 1 := by
  unfold repoStateCheck
  rw [thenDo_go]
  rcases hdis with hm | hu | hc
  · simp [hm]
  · by_cases hm : containsStr env.gitStatus "On branch master" = true
    · simp [hm, hu]
    · rw [Bool.not_eq_true] at hm
      simp [hm]
  · by_cases hm : containsStr env.gitStatus "On branch master" = true
    · by_cases hu : containsStr env.gitStatus
          "Your branch is up to date with \x27origin/master\x27." = true
      · simp [hm, hu, hc]
      · rw [Bool.not_eq_true] at hu
        simp [hm, hu]
    · rw [Bool.not_eq_true] at hm
      simp [hm]

/-- C5 counterexample: on a fully healthy non-prerelease run, the version
bump occurs strictly before the build step, contradicting the claimed
order installing, building, testing, then bumping. -/
theorem c5_counterexample :
    Event.bump ["--patch"] ∈ (runScript goodEnv).1 ∧
    Event.build ∈ (runScript goodEnv).1 ∧
    (runScript goodEnv).1.indexOf (Event.bump ["--patch"]) <
      (runScript goodEnv).1.indexOf Event.build := by decide

/-- C5 amended: the steps run in the strictly linear order argument
validation, prerequisite checks, repository-state checks, installing,
version bumping, building, testing, signature verification, pushing,
release creation, publishing - the bump precedes build and test; on a
fully healthy non-prerelease run the trace is exactly this sequence with
exit code 0; whenever the build or the test step exits non-zero, no
push, release-creation or publish action ever occurs; and every
non-advisory failure transitions directly to the aborted state with a
non-zero exit code: a validation, prerequisite, repository-state or
signature failure exits 1, and a failing install, build or test
propagates that command exit code. -/
theorem c5_linear_order (env : Env) :
    (env.isRC = false →
     argCheck env = ([], none) → helpCheck env = ([], none) →
     firstFailure (prereqChecks env) = none →
     containsStr env.gitStatus "On branch master" = true →
     containsStr env.gitStatus "Your branch is up to date with \x27origin/master\x27." = true →
     containsStr env.gitStatus "working tree clean" = true →
     env.installCode = 0 → env.buildCode = 0 → env.testCode = 0 →
     containsStr env.headSigStatus "N" = false →
     containsStr env.whichHubOut "not found" = false →
     ∀ p c, lastTwo (qualifyingTags env) = [p, c] →
     runScript env =
       ([.out "Verifying prerequisites...", .out "All prerequisites verified successfully!",
         .out "Fetching git remotes", .fetch,
         .out "Installing dependencies according to lockfile", .install,
         .out ("Bumping package.json " ++ firstArg env ++ " version and tagging commit"),
         .bump (releaseFlags env), .out "Building", .build, .out "Running tests", .testRun,
         .out "Pushing git commit and tag", .push,
         .out "Creating GitHub release", .out "", .out "    ",
         .releaseCreate c ((commitSubjectsBetween env p c).map (fun s => "- " ++ s)),
         .out "Publishing release", .publish false,
         .out "Publish successful!", .out ""], 0)) ∧
    (¬env.buildCode = 0 → ∀ e ∈ (runScript env).1, isLate e = false) ∧
    (¬env.testCode = 0 → ∀ e ∈ (runScript env).1, isLate e = false) ∧
    (env.isRC = false →
      (env.args.length = 0 ∨ firstArg env ∉ (["patch", "minor", "major"] : List String)) →
      (runScript env).2 = 1) ∧
    (∀ ms, argCheck env = ([], none) → helpCheck env = ([], none) →
      firstFailure (prereqChecks env) = some ms → (runScript env).2 = 1) ∧
    (argCheck env = ([], none) → helpCheck env = ([], none) →
      firstFailure (prereqChecks env) = none →
      (containsStr env.gitStatus "On branch master" = false ∨
       containsStr env.gitStatus "Your branch is up to date with \x27origin/master\x27." = false ∨
       containsStr env.gitStatus "working tree clean" = false) →
      (runScript env).2 = 1) ∧
    (argCheck env = ([], none) → helpCheck env = ([], none) →
      firstFailure (prereqChecks env) = none →
      containsStr env.gitStatus "On branch master" = true →
      containsStr env.gitStatus "Your branch is up to date with \x27origin/master\x27." = true →
      containsStr env.gitStatus "working tree clean" = true →
      ((¬env.installCode = 0 → (runScript env).2 = env.installCode) ∧
       (env.installCode = 0 → ¬env.buildCode = 0 → (runScript env).2 = env.buildCode) ∧
       (env.installCode = 0 → env.buildCode = 0 → ¬env.testCode = 0 →
         (runScript env).2 = env.testCode) ∧
       (env.installCode = 0 → env.buildCode = 0 → env.testCode = 0 →
         containsStr env.headSigStatus "N" = true → (runScript env).2 = 1))) := by
  refine ⟨?_, ?_, ?_, ?_, ?_, ?_, ?_⟩
  · intro hrc hval hhlp hpre h1 h2 h3 hinst hbuild htest hsig hhub p c hq
    have hvp : verify_prerequisites env =
        ([.out "Verifying prerequisites...", .out "All prerequisites verified successfully!"],
          none) := by
      simp [verify_prerequisites, runChecks_pass _ hpre]
    have hrs : repoStateCheck env = ([.out "Fetching git remotes", .fetch], none) := by
      simp [repoStateCheck, h1, h2, h3]
    have hsg : verify_commit_is_signed env = ([], none) := by
      simp [verify_commit_is_signed, hsig]
    have hrel : create_github_release env =
        ([.out "Creating GitHub release", .out "", .out "    ",
          .releaseCreate c ((commitSubjectsBetween env p c).map (fun s => "- " ++ s))],
         none) := by
      simp [create_github_release, hhub, hq]
    have hrun : runList (pipeline env) =
        ([.out "Verifying prerequisites...", .out "All prerequisites verified successfully!",
          .out "Fetching git remotes", .fetch,
          .out "Installing dependencies according to lockfile", .install,
          .out ("Bumping package.json " ++ firstArg env ++ " version and tagging commit"),
          .bump (releaseFlags env), .out "Building", .build, .out "Running tests", .testRun,
          .out "Pushing git commit and tag", .push,
          .out "Creating GitHub release", .out "", .out "    ",
          .releaseCreate c ((commitSubjectsBetween env p c).map (fun s => "- " ++ s)),
          .out "Publishing release", .publish false,
          .out "Publish successful!", .out ""], none) := by
      simp [pipeline, runList, hval, hhlp, hvp, hrs, installStep, hinst, bumpStep,
        buildStep, hbuild, testStep, htest, hsg, pushStep, hrc, hrel, publishStep]
    unfold runScript
    rw [hrun]
  · intro hb e he
    rw [runScript_fst] at he
    have hsplit : pipeline env = [argCheck env, helpCheck env, verify_prerequisites env,
        repoStateCheck env, installStep env, bumpStep env] ++ buildStep env ::
        [testStep env, verify_commit_is_signed env, pushStep,
         (if env.isRC then ([], none) else create_github_release env), publishStep env,
         ([.out "Publish successful!", .out ""], none)] := rfl
    rw [hsplit] at he
    have hstop : (buildStep env).2 = some env.buildCode := by
      simp [buildStep, hb]
    rcases runList_stop_mem _ _ _ _ hstop he with ⟨t, ht, he2⟩ | he2
    · simp only [List.mem_cons, List.not_mem_nil, or_false] at ht
      rcases ht with rfl | rfl | rfl | rfl | rfl | rfl
      · rcases ev_argCheck env e he2 with rfl | ⟨s, rfl⟩ <;> rfl
      · rw [ev_helpCheck env e he2]
        rfl
      · rcases ev_prereq env e he2 with ⟨s, rfl⟩
        rfl
      · rcases ev_repoState env e he2 with rfl | ⟨s, rfl⟩ <;> rfl
      · simp only [installStep, List.mem_cons, List.not_mem_nil, or_false] at he2
        rcases he2 with rfl | rfl <;> rfl
      · simp only [bumpStep, List.mem_cons, List.not_mem_nil, or_false] at he2
        rcases he2 with rfl | rfl <;> rfl
    · simp only [buildStep, List.mem_cons, List.not_mem_nil, or_false] at he2
      rcases he2 with rfl | rfl <;> rfl
  · intro ht e he
    rw [runScript_fst] at he
    have hsplit : pipeline env = [argCheck env, helpCheck env, verify_prerequisites env,
        repoStateCheck env, installStep env, bumpStep env, buildStep env] ++ testStep env ::
        [verify_commit_is_signed env, pushStep,
         (if env.isRC then ([], none) else create_github_release env), publishStep env,
         ([.out "Publish successful!", .out ""], none)] := rfl
    rw [hsplit] at he
    have hstop : (testStep env).2 = some env.testCode := by
      simp [testStep, ht]
    rcases runList_stop_mem _ _ _ _ hstop he with ⟨t, ht2, he2⟩ | he2
    · simp only [List.mem_cons, List.not_mem_nil, or_false] at ht2
      rcases ht2 with rfl | rfl | rfl | rfl | rfl | rfl | rfl
      · rcases ev_argCheck env e he2 with rfl | ⟨s, rfl⟩ <;> rfl
      · rw [ev_helpCheck env e he2]
        rfl
      · rcases ev_prereq env e he2 with ⟨s, rfl⟩
        rfl
      · rcases ev_repoState env e he2 with rfl | ⟨s, rfl⟩ <;> rfl
      · simp only [installStep, List.mem_cons, List.not_mem_nil, or_false] at he2
        rcases he2 with rfl | rfl <;> rfl
      · simp only [bumpStep, List.mem_cons, List.not_mem_nil, or_false] at he2
        rcases he2 with rfl | rfl <;> rfl
      · simp only [buildStep, List.mem_cons, List.not_mem_nil, or_false] at he2
        rcases he2 with rfl | rfl <;> rfl
    · simp only [testStep, List.mem_cons, List.not_mem_nil, or_false] at he2
      rcases he2 with rfl | rfl <;> rfl
  · intro hrc hbad
    have hstop : (argCheck env).2 = some 1 := by
      rcases hbad with hlen | hbad
      · simp [argCheck, hrc, hlen]
      · by_cases hlen : env.args.length = 0
        · simp [argCheck, hrc, hlen]
        · simp [argCheck, hrc, hlen, hbad]
    refine runScript_exit env 1 ?_
    have hsplit : pipeline env = [] ++ argCheck env :: [helpCheck env,
        verify_prerequisites env, repoStateCheck env, installStep env, bumpStep env,
        buildStep env, testStep env, verify_commit_is_signed env, pushStep,
        (if env.isRC then ([], none) else create_github_release env), publishStep env,
        ([.out "Publish successful!", .out ""], none)] := rfl
    rw [hsplit]
    exact runList_stop_exit _ _ _ _ (by simp) hstop
  · intro ms hval hhlp hff
    rw [prereq_fail_run env ms hval hhlp hff]
  · intro hval hhlp hpre hdis
    have hvp : verify_prerequisites env =
        ([.out "Verifying prerequisites...", .out "All prerequisites verified successfully!"],
          none) := by
      simp [verify_prerequisites, runChecks_pass _ hpre]
    refine runScript_exit env 1 ?_
    have hsplit : pipeline env = [argCheck env, helpCheck env, verify_prerequisites env] ++
        repoStateCheck env :: [installStep env, bumpStep env, buildStep env, testStep env,
        verify_commit_is_signed env, pushStep,
        (if env.isRC then ([], none) else create_github_release env), publishStep env,
        ([.out "Publish successful!", .out ""], none)] := rfl
    rw [hsplit]
    refine runList_stop_exit _ _ _ _ ?_ (repoStateCheck_stop env hdis)
    intro t ht
    simp only [List.mem_cons, List.not_mem_nil, or_false] at ht
    rcases ht with rfl | rfl | rfl
    · rw [hval]
    · rw [hhlp]
    · rw [hvp]
  · intro hval hhlp hpre h1 h2 h3
    have hvp : verify_prerequisites env =
        ([.out "Verifying prerequisites...", .out "All prerequisites verified successfully!"],
          none) := by
      simp [verify_prerequisites, runChecks_pass _ hpre]
    have hrs : repoStateCheck env = ([.out "Fetching git remotes", .fetch], none) := by
      simp [repoStateCheck, h1, h2, h3]
    refine ⟨?_, ?_, ?_, ?_⟩
    · intro hifail
      refine runScript_exit env env.installCode ?_
      have hsplit : pipeline env = [argCheck env, helpCheck env, verify_prerequisites env,
          repoStateCheck env] ++ installStep env :: [bumpStep env, buildStep env,
          testStep env, verify_commit_is_signed env, pushStep,
          (if env.isRC then ([], none) else create_github_release env), publishStep env,
          ([.out "Publish successful!", .out ""], none)] := rfl
      rw [hsplit]
      refine runList_stop_exit _ _ _ _ ?_ (by simp [installStep, hifail])
      intro t ht
      simp only [List.mem_cons, List.not_mem_nil, or_false] at ht
      rcases ht with rfl | rfl | rfl | rfl
      · rw [hval]
      · rw [hhlp]
      · rw [hvp]
      · rw [hrs]
    · intro hinst hbfail
      refine runScript_exit env env.buildCode ?_
      have hsplit : pipeline env = [argCheck env, helpCheck env, verify_prerequisites env,
          repoStateCheck env, installStep env, bumpStep env] ++ buildStep env ::
          [testStep env, verify_commit_is_signed env, pushStep,
           (if env.isRC then ([], none) else create_github_release env), publishStep env,
           ([.out "Publish successful!", .out ""], none)] := rfl
      rw [hsplit]
      refine runList_stop_exit _ _ _ _ ?_ (by simp [buildStep, hbfail])
      intro t ht
      simp only [List.mem_cons, List.not_mem_nil, or_false] at ht
      rcases ht with rfl | rfl | rfl | rfl | rfl | rfl
      · rw [hval]
      · rw [hhlp]
      · rw [hvp]
      · rw [hrs]
      · simp [installStep, hinst]
      · simp [bumpStep]
    · intro hinst hbuild htfail
      refine runScript_exit env env.testCode ?_
      have hsplit : pipeline env = [argCheck env, helpCheck env, verify_prerequisites env,
          repoStateCheck env, installStep env, bumpStep env, buildStep env] ++
          testStep env :: [verify_commit_is_signed env, pushStep,
           (if env.isRC then ([], none) else create_github_release env), publishStep env,
           ([.out "Publish successful!", .out ""], none)] := rfl
      rw [hsplit]
      refine runList_stop_exit _ _ _ _ ?_ (by simp [testStep, htfail])
      intro t ht
      simp only [List.mem_cons, List.not_mem_nil, or_false] at ht
      rcases ht with rfl | rfl | rfl | rfl | rfl | rfl | rfl
      · rw [hval]
      · rw [hhlp]
      · rw [hvp]
      · rw [hrs]
      · simp [installStep, hinst]
      · simp [bumpStep]
      · simp [buildStep, hbuild]
    · intro hinst hbuild htest hsigt
      refine runScript_exit env 1 ?_
      have hsplit : pipeline env = [argCheck env, helpCheck env, verify_prerequisites env,
          repoStateCheck env, installStep env, bumpStep env, buildStep env, testStep env] ++
          verify_commit_is_signed env :: [pushStep,
           (if env.isRC then ([], none) else create_github_release env), publishStep env,
           ([.out "Publish successful!", .out ""], none)] := rfl
      rw [hsplit]
      refine runList_stop_exit _ _ _ _ ?_ (by simp [verify_commit_is_signed, hsigt])
      intro t ht
      simp only [List.mem_cons, List.not_mem_nil, or_false] at ht
      rcases ht with rfl | rfl | rfl | rfl | rfl | rfl | rfl | rfl
      · rw [hval]
      · rw [hhlp]
      · rw [hvp]
      · rw [hrs]
      · simp [installStep, hinst]
      · simp [bumpStep]
      · simp [buildStep, hbuild]
      · simp [testStep, htest]

/-- C5 witness: the amended statement applied to the concrete healthy
environment and to one whose build fails. -/
theorem c5_witness :
    runScript goodEnv =
      ([.out "Verifying prerequisites...", .out "All prerequisites verified successfully!",
        .out "Fetching git remotes", .fetch,
        .out "Installing dependencies according to lockfile", .install,
        .out "Bumping package.json patch version and tagging commit",
        .bump ["--patch"], .out "Building", .build, .out "Running tests", .testRun,
        .out "Pushing git commit and tag", .push,
        .out "Creating GitHub release", .out "", .out "    ",
        .releaseCreate "v1.3.2" ["- Fix foo", "- Add bar"],
        .out "Publishing release", .publish false,
        .out "Publish successful!", .out ""], 0) ∧
    (∀ e ∈ (runScript envBuildFail).1, isLate e = false) ∧
    (runScript envBuildFail).2 = 2 := by
  refine ⟨?_, ?_, ?_⟩
  · have h := (c5_linear_order goodEnv).1 rfl rfl rfl (by decide) (by decide) (by decide)
      (by decide) rfl rfl rfl (by decide) (by decide) "v1.3.1" "v1.3.2" (by decide)
    rw [h]
    rfl
  · exact (c5_linear_order envBuildFail).2.1 (by decide)
  · exact ((c5_linear_order envBuildFail).2.2.2.2.2.2 (by decide) (by decide) (by decide)
      (by decide) (by decide) (by decide)).2.1 rfl (by decide)

/-- C7 counterexample: a run whose most recent commit has %G? status B (a
bad, unverifiable signature) passes the signature check, pushes, and
exits 0, contradicting the claim that an unverifiable commit aborts the
run. -/
theorem c7_counterexample :
    envBadSig.headSigStatus = "B" ∧ (runScript envBadSig).2 = 0 ∧
      Event.push ∈ (runScript envBadSig).1 := by decide

/-- C7 amended: on a run that reaches the signature check (all earlier
gates pass), the check inspects the %G? status of the most recent commit after
the bump and before the push: if the status contains N (no signature) the
run exits 1 naming the offending hash, with the bump already in the trace
and no push ever occurring; any status without N - including bad or
unverifiable signatures - passes, and the push occurs. -/
theorem c7_signature_gate (env : Env)
    (hval : argCheck env = ([], none)) (hhlp : helpCheck env = ([], none))
    (hpre : firstFailure (prereqChecks env) = none)
    (h1 : containsStr env.gitStatus "On branch master" = true)
    (h2 : containsStr env.gitStatus "Your branch is up to date with \x27origin/master\x27." = true)
    (h3 : containsStr env.gitStatus "working tree clean" = true)
    (hinst : env.installCode = 0) (hbuild : env.buildCode = 0) (htest : env.testCode = 0) :
    (containsStr env.headSigStatus "N" = true →
      (runScript env).2 = 1 ∧
      Event.out ("Error! Commit " ++ env.headHash ++ " is not signed") ∈ (runScript env).1 ∧
      Event.bump (releaseFlags env) ∈ (runScript env).1 ∧
      Event.push ∉ (runScript env).1) ∧
    (containsStr env.headSigStatus "N" = false →
      Event.push ∈ (runScript env).1) := by
  have hvp : verify_prerequisites env =
      ([.out "Verifying prerequisites...", .out "All prerequisites verified successfully!"],
        none) := by
    simp [verify_prerequisites, runChecks_pass _ hpre]
  have hrs : repoStateCheck env = ([.out "Fetching git remotes", .fetch], none) := by
    simp [repoStateCheck, h1, h2, h3]
  constructor
  · intro hsig
    have hrun : runList (pipeline env) =
        ([.out "Verifying prerequisites...", .out "All prerequisites verified successfully!",
          .out "Fetching git remotes", .fetch,
          .out "Installing dependencies according to lockfile", .install,
          .out ("Bumping package.json " ++ firstArg env ++ " version and tagging commit"),
          .bump (releaseFlags env), .out "Building", .build, .out "Running tests", .testRun,
          .out ("Error! Commit " ++ env.headHash ++ " is not signed"),
          .out "Please follow https://docs.github.com/en/authentication/managing-commit-signature-verification/adding-a-gpg-key-to-your-github-account and sign your commit"],
         some 1) := by
      simp [pipeline, runList, hval, hhlp, hvp, hrs, installStep, hinst, bumpStep,
        buildStep, hbuild, testStep, htest, verify_commit_is_signed, hsig]
    have hres : runScript env =
        ([.out "Verifying prerequisites...", .out "All prerequisites verified successfully!",
          .out "Fetching git remotes", .fetch,
          .out "Installing dependencies according to lockfile", .install,
          .out ("Bumping package.json " ++ firstArg env ++ " version and tagging commit"),
          .bump (releaseFlags env), .out "Building", .build, .out "Running tests", .testRun,
          .out ("Error! Commit " ++ env.headHash ++ " is not signed"),
          .out "Please follow https://docs.github.com/en/authentication/managing-commit-signature-verification/adding-a-gpg-key-to-your-github-account and sign your commit"],
         1) := by
      unfold runScript
      rw [hrun]
    refine ⟨by rw [hres], by rw [hres]; simp, by rw [hres]; simp, by rw [hres]; simp⟩
  · intro hsig
    rw [happy_prefix_events env hval hhlp hpre h1 h2 h3 hinst hbuild htest hsig]
    simp

/-- C7 witness: the amended statement applied to a concrete run whose
most recent commit is unsigned (%G? status N). -/
theorem c7_witness :
    (runScript envNoSig).2 = 1 ∧
    Event.out "Error! Commit a3 is not signed" ∈ (runScript envNoSig).1 ∧
    Event.bump ["--patch"] ∈ (runScript envNoSig).1 ∧
    Event.push ∉ (runScript envNoSig).1 :=
  (c7_signature_gate envNoSig rfl rfl (by decide) (by decide) (by decide) (by decide)
    rfl rfl rfl).1 (by decide)

end Publish
